import Mathlib

/-!
Verification of the request-validation-and-dispatch worker
(`rp_handler_minimal.py` and its tests) against its specification.

The Python code is shallowly embedded: every network or file interaction
is an observation supplied by an environment (`Env`), and each embedded
function additionally returns the list of network effects it performed,
so that claims about "no network call" and about retry counts can be
stated and proved.  Machine behaviour that lives outside `src/`
(the declarative schemas, the host result wrapping, the sampler
normalizer) is modelled from the specification and marked as such in
doc comments.
-/

/-- JSON-like values: the payloads, events and responses the worker
manipulates (Python dicts, lists, strings, numbers, booleans, None). -/
inductive JVal where
  | null : JVal
  | bool (b : Bool) : JVal
  | num (n : Int) : JVal
  | str (s : String) : JVal
  | arr (xs : List JVal) : JVal
  | obj (fields : List (String × JVal)) : JVal

/-- First-match association lookup, the embedding of a Python dict read
(dict keys are unique, so first match is the only match). -/
def lookupKey : List (String × JVal) → String → Option JVal
  | [], _ => none
  | (k, v) :: rest, key => if k = key then some v else lookupKey rest key

/-- Reading `d[key]` on a JSON object; yields none when the key is
absent or the value is not an object (Python would raise). -/
def objGet : JVal → String → Option JVal
  | .obj fs, k => lookupKey fs k
  | _, _ => none

/-- Whether a JSON object carries the given key. -/
def hasKey (j : JVal) (k : String) : Bool :=
  (objGet j k).isSome

/-- Rendering of a value inside a Python f-string (only string values
occur on the paths the claims exercise). -/
def fstr : JVal → String
  | .str s => s
  | .num n => toString n
  | .bool b => if b then "True" else "False"
  | .null => "None"
  | .arr _ => "<list>"
  | .obj _ => "<dict>"

/-- The dict literal the handler returns on every failure path. -/
def errObj (msg : String) : JVal := .obj [("error", .str msg)]

/-- Outcome of running a piece of Python code: it returned a value,
raised an exception, or never terminated within the observations the
environment supplies (the unbounded probe loop). -/
inductive PyOutcome where
  | ret (v : JVal) : PyOutcome
  | exn (e : String) : PyOutcome
  | hang : PyOutcome

/-- An HTTP response as the worker observes it: status code, the result
of attempting to parse the body as JSON (none when parsing raises), and
the raw body text. -/
structure HttpResponse where
  status : Nat
  jsonBody : Option JVal
  text : String

/-- Network and file effects, recorded in order, so that claims about
which downstream effects a dispatch performs are statements about an
explicit trace. -/
inductive NetEffect where
  | probe (url : String) : NetEffect
  | get (url : String) : NetEffect
  | post (url : String) (payload : JVal) : NetEffect
  | fileWrite (path : String) : NetEffect
  | registry (modelId : String) : NetEffect

/-- Source constant `BASE_URI` of rp_handler_minimal.py. -/
def BASE_URI : String := "http://127.0.0.1:3000"

/-- Source constant `TIMEOUT` of rp_handler_minimal.py. -/
def TIMEOUT : Nat := 600

/-- Source constant `POST_RETRIES` of rp_handler_minimal.py. -/
def POST_RETRIES : Nat := 3

/-- Metadata the model registry reports for a model
(huggingface repo_info, observed through the environment). -/
structure RepoInfo where
  isPrivate : Bool
  repoId : String
  downloads : Int
  likes : Int

/-- The environment: outcomes of every external interaction the worker
may perform during one dispatch.  `probeOutcomes` lists the outcomes of
successive readiness probes (some status when the GET completed with
any HTTP status, none when it raised a network-level RequestException);
`postOutcomes k` is the outcome of POST attempt `k`; `getOutcome` the
outcome of the single GET; `download` the observed result of the helper
file download (ok carries the reported file size value); `sync` the
observed registry answer. -/
structure Env where
  probeOutcomes : List (Option Nat)
  postOutcomes : Nat → Except String HttpResponse
  getOutcome : Except String HttpResponse
  download : Except String Int
  sync : Except String RepoInfo

/-- Result of `send_post_request`: the outcome (some ok response when an
attempt returned, some error when the last attempt raised and the
exception was re-raised, none for the unreachable loop fall-through),
the number of attempts actually made, and the total time units slept
between attempts. -/
structure PostResult where
  outcome : Option (Except String HttpResponse)
  attemptsMade : Nat
  slept : Nat

/-- Embedding of the loop body of `send_post_request` (lines 80-89):
for each attempt, try the POST; on success return the response; on any
exception, if this is not the last attempt sleep 1 time unit and retry,
otherwise re-raise. `attempt` is the loop index, `remaining` the number
of iterations the `for` loop still has (`POST_RETRIES - attempt`). -/
def send_post_go (oracle : Nat → Except String HttpResponse) :
    Nat → Nat → PostResult
  | _, 0 => ⟨none, 0, 0⟩
  | attempt, r + 1 =>
    match oracle attempt with
    | .ok resp => ⟨some (.ok resp), 1, 0⟩
    | .error e =>
      if attempt < POST_RETRIES - 1 then
        let t := send_post_go oracle (attempt + 1) r
        ⟨t.outcome, t.attemptsMade + 1, t.slept + 1⟩
      else
        ⟨some (.error e), 1, 0⟩

/-- Embedding of `send_post_request` (rp_handler_minimal.py lines 69-89). -/
def send_post_request (oracle : Nat → Except String HttpResponse) : PostResult :=
  send_post_go oracle 0 POST_RETRIES

/-- Trace of one run of the readiness prober: whether a probe completed
within the supplied outcomes (false models the loop still running),
probes issued, total time units slept, and progress notices emitted. -/
structure WaitTrace where
  ok : Bool
  attempts : Nat
  slept : Nat
  logs : Nat
deriving Repr, DecidableEq

/-- Embedding of the loop of `wait_for_service` (lines 41-53): issue a
GET; return on any completed response; on a RequestException increment
the retry counter, log once every 15 retries, sleep 2 time units and
loop.  `retries` is the counter (0 at entry). -/
def wait_go : List (Option Nat) → Nat → WaitTrace
  | [], _ => ⟨false, 0, 0, 0⟩
  | o :: rest, retries =>
    match o with
    | some _ => ⟨true, 1, 0, 0⟩
    | none =>
      let t := wait_go rest (retries + 1)
      ⟨t.ok, t.attempts + 1, t.slept + 2,
       t.logs + (if (retries + 1) % 15 = 0 then 1 else 0)⟩

/-- Embedding of `wait_for_service` (rp_handler_minimal.py lines 32-53). -/
def wait_for_service (outcomes : List (Option Nat)) : WaitTrace :=
  wait_go outcomes 0

/-- Modelled from the spec: the envelope schema (schemas/input.py,
imported as INPUT_SCHEMA) is not under src/.  Per the spec it checks
presence of the `api` and `payload` fields of the job input. -/
def validate_input (input : JVal) : Option String :=
  match input with
  | .obj _ =>
    if hasKey input "api" then
      if hasKey input "payload" then none
      else some "payload is required"
    else some "api is required"
  | _ => some "input must be a dictionary"

/-- Modelled from the spec: the API-descriptor schema
(schemas/api_minimal.py, imported as API_SCHEMA) and the library
validator are not under src/.  Per the spec the API descriptor requires
a method belonging to the set containing GET and POST, and an endpoint
that is a string.  The source function `validate_api`
(rp_handler_minimal.py lines 92-102) returns only the error, if any. -/
def validate_api (event_api : JVal) : Option String :=
  match objGet event_api "method" with
  | some (.str m) =>
    if m = "GET" ∨ m = "POST" then
      match objGet event_api "endpoint" with
      | some (.str _) => none
      | some _ => some "endpoint must be a string"
      | none => some "endpoint is required"
    else some "method must be GET or POST"
  | some _ => some "method must be a string"
  | none => some "method is required"

/-- The per-endpoint payload validators.  The five payload schemas
(txt2img, img2img, interrogate, sync, download) are repository files
not under src/, so the embedding is parametric in them: each field is
the validation function `fun p => validate(p, SCHEMA)` for one schema,
returning none on success and some error message on failure. -/
structure Validators where
  txt2img : JVal → Option String
  img2img : JVal → Option String
  interrogate : JVal → Option String
  sync : JVal → Option String
  download : JVal → Option String

/-- Embedding of `validate_payload` (rp_handler_minimal.py lines
105-127): the endpoint string selects which schema, if any, validates
the payload; endpoints matching none of the five literals skip payload
validation. -/
def validate_payload (V : Validators) (event_payload : JVal)
    (endpoint : String) : Option String :=
  if endpoint = "sdapi/v1/txt2img" then V.txt2img event_payload
  else if endpoint = "sdapi/v1/img2img" then V.img2img event_payload
  else if endpoint = "sdapi/v1/interrogate" then V.interrogate event_payload
  else if endpoint = "v1/sync" then V.sync event_payload
  else if endpoint = "v1/download" then V.download event_payload
  else none

/-- The endpoints the code knows: the five that select a payload schema
in `validate_payload`, which include the two helper operations of
`helper_functions`. -/
def knownEndpoints : List String :=
  ["sdapi/v1/txt2img", "sdapi/v1/img2img", "sdapi/v1/interrogate",
   "v1/sync", "v1/download"]

/-- Kernel-reducible prefix test on strings (Python str.startswith). -/
def pyStartsWith (s pfx : String) : Bool :=
  List.isPrefixOf pfx.toList s.toList

/-- Kernel-reducible ASCII lowercasing of one character. -/
def lowerChar (c : Char) : Char :=
  if 65 ≤ c.toNat ∧ c.toNat ≤ 90 then Char.ofNat (c.toNat + 32) else c

/-- Kernel-reducible ASCII lowercasing (Python str.lower on the
sampler names at hand). -/
def lowerStr (s : String) : String :=
  String.mk (s.toList.map lowerChar)

/-- Accumulator for whitespace tokenization. -/
def tokenizeAux : List Char → List Char → List String
  | [], acc => if acc = [] then [] else [String.mk acc.reverse]
  | c :: cs, acc =>
    if c.isWhitespace then
      if acc = [] then tokenizeAux cs []
      else String.mk acc.reverse :: tokenizeAux cs []
    else tokenizeAux cs (c :: acc)

/-- Whitespace tokenization: Python str.split() with no argument
(maximal runs of non-whitespace characters, in order). -/
def tokenize (s : String) : List String :=
  tokenizeAux s.toList []

/-- Rejoining tokens with single spaces. -/
def joinSpace : List String → String
  | [] => ""
  | [t] => t
  | t :: ts => t ++ " " ++ joinSpace ts

/-- The recognized scheduler keywords, lowercased.  The spec keeps the
set configurable; these are the three its examples name. -/
def SCHEDULER_KEYWORDS : List String := ["karras", "exponential", "uniform"]

/-- Modelled from the spec: the sampler normalizer `extract_scheduler`
lives in rp_handler.py, which is not under src/ (only its test,
test_local.py, is).  Per the spec: tokenize by whitespace; if the last
token case-insensitively equals a recognized keyword, emit the
lowercased keyword and the remaining tokens rejoined with single
spaces (trimmed); otherwise emit no scheduler and the original string
unchanged. -/
def extract_scheduler (keywords : List String) (sampler : String) :
    Option String × String :=
  let tokens := tokenize sampler
  match tokens.getLast? with
  | none => (none, sampler)
  | some last =>
    if lowerStr last ∈ keywords then
      (some (lowerStr last), joinSpace tokens.dropLast)
    else (none, sampler)

/-- Embedding of the response-parsing tail of `automatic_functions`
(lines 157-163): return the parsed JSON body, or, when parsing raises,
return an error dict embedding the raw response text. -/
def parseReturn (resp : HttpResponse) : PyOutcome :=
  match resp.jsonBody with
  | some v => .ret v
  | none =>
    .ret (errObj ("Invalid response received from Automatic1111 API: "
      ++ resp.text))

/-- Embedding of `automatic_functions` (rp_handler_minimal.py lines
133-163).  Reads method and endpoint from the API descriptor, builds
the target URL, performs the GET or the retried POST, and parses the
response; a method other than GET and POST yields the invalid-method
error dict with no network call. -/
def automatic_functions (env : Env) (event_api event_payload : JVal) :
    PyOutcome × List NetEffect :=
  match objGet event_api "method" with
  | none => (.exn "KeyError: method", [])
  | some methodV =>
    match objGet event_api "endpoint" with
    | none => (.exn "KeyError: endpoint", [])
    | some endpointV =>
      let url := BASE_URI ++ "/" ++ fstr endpointV
      match methodV with
      | .str m =>
        if m = "GET" then
          match env.getOutcome with
          | .error e => (.exn e, [.get url])
          | .ok resp => (parseReturn resp, [.get url])
        else if m = "POST" then
          let pr := send_post_request env.postOutcomes
          let effs := List.replicate pr.attemptsMade (NetEffect.post url event_payload)
          match pr.outcome with
          | some (.ok resp) => (parseReturn resp, effs)
          | some (.error e) => (.exn e, effs)
          | none => (.ret .null, effs)
        else
          (.ret (errObj ("Invalid method: " ++ m)), [])
      | other => (.ret (errObj ("Invalid method: " ++ fstr other)), [])

/-- Embedding of `download_file_from_url` (lines 169-209).  The remote
fetch, directory creation, streamed write and size measurement are
observed through the environment; the function catches every failure
and reports a status dict, and reports status success with path and
size on success.  Path joining models os.path.join. -/
def download_file_from_url (env : Env) (file_url file_name file_path : JVal) :
    PyOutcome × List NetEffect :=
  match env.download with
  | .error e =>
    (.ret (.obj [("status", .str "error"),
                 ("message", .str ("Failed to download file: " ++ e))]),
     [.get (fstr file_url)])
  | .ok sizeMB =>
    let loc := fstr file_path ++ "/" ++ fstr file_name
    (.ret (.obj [("status", .str "success"),
                 ("message", .str ("File " ++ fstr file_name
                    ++ " downloaded successfully")),
                 ("file_path", .str loc),
                 ("file_size_mb", .num sizeMB)]),
     [.get (fstr file_url), .fileWrite loc])

/-- Embedding of `sync_huggingface_model` (lines 212-251).  The
registry query is observed through the environment; failures and
private models are reported as status dicts, success carries the
registry metadata. -/
def sync_huggingface_model (env : Env) (model_id _access_token : JVal) :
    PyOutcome × List NetEffect :=
  match env.sync with
  | .error e =>
    (.ret (.obj [("status", .str "error"),
                 ("message", .str ("Failed to sync model: " ++ e))]),
     [.registry (fstr model_id)])
  | .ok info =>
    if info.isPrivate then
      (.ret (.obj [("status", .str "error"),
                   ("message", .str ("Model " ++ fstr model_id
                      ++ " is private"))]),
       [.registry (fstr model_id)])
    else
      (.ret (.obj [("status", .str "success"),
                   ("message", .str ("Model " ++ fstr model_id
                      ++ " synced successfully")),
                   ("model_info", .obj [("id", .str info.repoId),
                                        ("downloads", .num info.downloads),
                                        ("likes", .num info.likes)])]),
       [.registry (fstr model_id)])

/-- Embedding of `helper_functions` (rp_handler_minimal.py lines
254-281): dispatch on the endpoint name; missing payload fields raise
(KeyError); an endpoint under v1/ that is neither download nor sync
yields the invalid-helper-endpoint error dict. -/
def helper_functions (env : Env) (event_api event_payload : JVal) :
    PyOutcome × List NetEffect :=
  match objGet event_api "endpoint" with
  | none => (.exn "KeyError: endpoint", [])
  | some endpointV =>
    match endpointV with
    | .str endpoint =>
      if endpoint = "v1/download" then
        match objGet event_payload "file_url" with
        | none => (.exn "KeyError: file_url", [])
        | some u =>
          match objGet event_payload "file_name" with
          | none => (.exn "KeyError: file_name", [])
          | some n =>
            match objGet event_payload "file_path" with
            | none => (.exn "KeyError: file_path", [])
            | some p => download_file_from_url env u n p
      else if endpoint = "v1/sync" then
        match objGet event_payload "model_id" with
        | none => (.exn "KeyError: model_id", [])
        | some mid =>
          sync_huggingface_model env mid
            ((objGet event_payload "access_token").getD (.str ""))
      else
        (.ret (errObj ("Invalid helper endpoint: " ++ endpoint)), [])
    | other =>
      (.ret (errObj ("Invalid helper endpoint: " ++ fstr other)), [])

/-- The URL the readiness prober polls, from line 329. -/
def PROBE_URL : String := BASE_URI ++ "/sdapi/v1/options"

/-- Embedding of the `try` body of `handler` (rp_handler_minimal.py
lines 297-332), preserving the source order: validate the envelope,
bind api, payload and endpoint (each a KeyError when absent), validate
the API descriptor, validate the payload for schema-registered
endpoints, then route by the v1/ prefix: helper functions, or readiness
probe followed by forwarding. -/
def handlerBody (V : Validators) (env : Env) (event : JVal) :
    PyOutcome × List NetEffect :=
  match objGet event "input" with
  | none => (.exn "KeyError: input", [])
  | some inp =>
    match validate_input inp with
    | some err => (.ret (errObj err), [])
    | none =>
      match objGet inp "api" with
      | none => (.exn "KeyError: api", [])
      | some event_api =>
        match objGet inp "payload" with
        | none => (.exn "KeyError: payload", [])
        | some event_payload =>
          match objGet event_api "endpoint" with
          | none => (.exn "KeyError: endpoint", [])
          | some endpointV =>
            match validate_api event_api with
            | some err => (.ret (errObj err), [])
            | none =>
              match endpointV with
              | .str endpoint =>
                match validate_payload V event_payload endpoint with
                | some err => (.ret (errObj err), [])
                | none =>
                  if pyStartsWith endpoint "v1/" then
                    helper_functions env event_api event_payload
                  else
                    let w := wait_for_service env.probeOutcomes
                    let probeEffs :=
                      List.replicate w.attempts (NetEffect.probe PROBE_URL)
                    if w.ok then
                      let (r, effs) :=
                        automatic_functions env event_api event_payload
                      (r, probeEffs ++ effs)
                    else (.hang, probeEffs)
              | _ => (.exn "TypeError: endpoint is not a string", [])

/-- How the outermost try/except of `handler` (lines 334-340) maps the
body outcome: a raised exception becomes the error dict, a hang stays a
hang (modelled as none). -/
def pyToOpt : PyOutcome → Option JVal
  | .ret v => some v
  | .exn e => some (errObj e)
  | .hang => none

/-- Embedding of `handler` (rp_handler_minimal.py lines 287-340): the
body wrapped in the outermost exception catch, together with the trace
of network and file effects the dispatch performed. -/
def handler (V : Validators) (env : Env) (event : JVal) :
    Option JVal × List NetEffect :=
  match handlerBody V env event with
  | (out, effs) => (pyToOpt out, effs)

/-- Modelled from the spec: the host (the runpod serverless library,
not under src/) turns the handler return value into the result document
sent upstream — a returned dict carrying the key error is surfaced as
the error result, any other return becomes the output. -/
def resultDoc (r : JVal) : JVal :=
  match objGet r "error" with
  | some e => .obj [("error", e)]
  | none => .obj [("output", r)]

/-- The api.endpoint field of a job event, when every level is present. -/
def eventEndpoint (event : JVal) : Option JVal :=
  (objGet event "input").bind fun inp =>
    (objGet inp "api").bind fun api => objGet api "endpoint"

/-- A permissive set of payload validators: every payload passes. -/
def acceptAll : Validators :=
  ⟨fun _ => none, fun _ => none, fun _ => none, fun _ => none, fun _ => none⟩

/-- Payload validators whose txt2img schema rejects every payload, used
to observe which endpoint string selects the schema. -/
def rejectTxt2img : Validators :=
  ⟨fun _ => some "txt2img payload rejected", fun _ => none, fun _ => none,
   fun _ => none, fun _ => none⟩

/-- The body the demo backing service answers with. -/
def demoBody : JVal := .obj [("ok", .bool true)]

/-- A demo environment: the first probe completes, the first POST
attempt returns status 200 with a parseable body, the GET likewise,
helper operations succeed. -/
def envDemo : Env :=
  ⟨[some 200],
   fun _ => .ok ⟨200, some demoBody, "ok"⟩,
   .ok ⟨200, some demoBody, "ok"⟩,
   .ok 5,
   .ok ⟨false, "m", 1, 2⟩⟩

/-- A job whose input lacks api.endpoint. -/
def eventNoEndpoint : JVal :=
  .obj [("input", .obj [("api", .obj [("method", .str "POST")]),
                        ("payload", .obj [])])]

/-- A job whose endpoint matches no known endpoint. -/
def eventUnknown : JVal :=
  .obj [("input", .obj [("api", .obj [("method", .str "POST"),
                                      ("endpoint", .str "invalid/endpoint")]),
                        ("payload", .obj [])])]

/-- A job whose endpoint carries a leading slash. -/
def eventSlash : JVal :=
  .obj [("input", .obj [("api", .obj [("method", .str "POST"),
                                      ("endpoint", .str "/sdapi/v1/txt2img")]),
                        ("payload", .obj [("prompt", .str "x")])])]

/-- A job whose endpoint is under the helper prefix but matches no
helper operation. -/
def eventHelperMiss : JVal :=
  .obj [("input", .obj [("api", .obj [("method", .str "POST"),
                                      ("endpoint", .str "v1/other")]),
                        ("payload", .obj [])])]

/-- The POST loop makes at most as many attempts as it has iterations left. -/
theorem send_post_go_attempts_le (o : Nat → Except String HttpResponse) :
    ∀ r a, (send_post_go o a r).attemptsMade ≤ r := by
  intro r
  induction r with
  | zero => intro a; simp [send_post_go]
  | succ n ih =>
    intro a
    simp only [send_post_go]
    cases h : o a with
    | ok resp => simp
    | error e =>
      by_cases hlt : a < POST_RETRIES - 1
      · simp only [hlt, if_true]
        exact Nat.succ_le_succ (ih (a + 1))
      · simp only [hlt, if_false]
        omega

/-- C6: the forwarder attempts the POST up to 3 times, retrying on any
exception with a 1-time-unit sleep between consecutive attempts; a
success on any attempt is returned immediately with the right number of
sleeps, and when all 3 attempts raise, the last exception is re-raised
after 3 attempts and 2 sleeps, with no fourth attempt. -/
theorem send_post_retry_policy (e0 e1 e2 : String) (r : HttpResponse)
    (rest : Nat → Except String HttpResponse) :
    (∀ oracle, (send_post_request oracle).attemptsMade ≤ 3) ∧
    send_post_request (fun k => if k = 0 then .ok r else rest k)
      = ⟨some (.ok r), 1, 0⟩ ∧
    send_post_request
        (fun k => if k = 0 then .error e0 else if k = 1 then .ok r else rest k)
      = ⟨some (.ok r), 2, 1⟩ ∧
    send_post_request
        (fun k => if k = 0 then .error e0 else if k = 1 then .error e1
                  else if k = 2 then .ok r else rest k)
      = ⟨some (.ok r), 3, 2⟩ ∧
    send_post_request
        (fun k => if k = 0 then .error e0 else if k = 1 then .error e1
                  else if k = 2 then .error e2 else rest k)
      = ⟨some (.error e2), 3, 2⟩ := by
  refine ⟨fun oracle => send_post_go_attempts_le oracle POST_RETRIES 0, rfl, rfl, rfl, rfl⟩

/-- C9: a POST attempt that yields any HTTP response is returned
immediately, whatever its status code; retries happen only after raised
exceptions; and the parsed body of a response with an arbitrary (for
instance error) status is returned as the output of the forwarding
call, not as an error result. -/
theorem response_returned_regardless_of_status (probes : List (Option Nat))
    (g : Except String HttpResponse) (d : Except String Int)
    (sy : Except String RepoInfo) (status : Nat) (txt ep e0 : String)
    (payl v : JVal) (rest : Nat → Except String HttpResponse) :
    send_post_request (fun k => if k = 0 then .ok ⟨status, some v, txt⟩ else rest k)
      = ⟨some (.ok ⟨status, some v, txt⟩), 1, 0⟩ ∧
    send_post_request
        (fun k => if k = 0 then .error e0
                  else if k = 1 then .ok ⟨status, some v, txt⟩ else rest k)
      = ⟨some (.ok ⟨status, some v, txt⟩), 2, 1⟩ ∧
    automatic_functions
        ⟨probes, fun k => if k = 0 then .ok ⟨status, some v, txt⟩ else rest k, g, d, sy⟩
        (.obj [("method", .str "POST"), ("endpoint", .str ep)]) payl
      = (.ret v, [.post (BASE_URI ++ "/" ++ ep) payl]) := by
  exact ⟨rfl, rfl, rfl⟩

/-- C7: a forwarded request whose response body does not parse as JSON
produces, for both methods, a returned error dict embedding the raw
response text; the parse failure is a return value, never a raised
exception. -/
theorem unparseable_response_reported (probes : List (Option Nat))
    (g : Except String HttpResponse) (d : Except String Int)
    (sy : Except String RepoInfo) (status : Nat) (txt ep : String)
    (payl : JVal) (rest : Nat → Except String HttpResponse) :
    automatic_functions
        ⟨probes, fun k => if k = 0 then .ok ⟨status, none, txt⟩ else rest k, g, d, sy⟩
        (.obj [("method", .str "POST"), ("endpoint", .str ep)]) payl
      = (.ret (errObj ("Invalid response received from Automatic1111 API: " ++ txt)),
         [.post (BASE_URI ++ "/" ++ ep) payl]) ∧
    (∀ po, automatic_functions ⟨probes, po, .ok ⟨status, none, txt⟩, d, sy⟩
        (.obj [("method", .str "GET"), ("endpoint", .str ep)]) payl
      = (.ret (errObj ("Invalid response received from Automatic1111 API: " ++ txt)),
         [.get (BASE_URI ++ "/" ++ ep)])) := by
  exact ⟨rfl, fun po => rfl⟩

/-- Running the probe loop through n failures shifts the retry counter
by n, adds n probes and 2n slept time units, and adds one progress
notice for each multiple of 15 the counter passes. -/
theorem wait_go_replicate (rest : List (Option Nat)) :
    ∀ (n r : Nat),
      wait_go (List.replicate n none ++ rest) r =
        ⟨(wait_go rest (r + n)).ok, (wait_go rest (r + n)).attempts + n,
         (wait_go rest (r + n)).slept + 2 * n,
         (wait_go rest (r + n)).logs + ((r + n) / 15 - r / 15)⟩ := by
  intro n
  induction n with
  | zero =>
    intro r
    simp
  | succ k ih =>
    intro r
    rw [List.replicate_succ, List.cons_append]
    simp only [wait_go]
    rw [ih (r + 1), show r + 1 + k = r + (k + 1) from by omega]
    have hd : (r + 1) / 15 = r / 15 + if 15 ∣ r + 1 then 1 else 0 :=
      Nat.succ_div r 15
    have hm2 : (r + 1) / 15 ≤ (r + (k + 1)) / 15 :=
      Nat.div_le_div_right (by omega)
    have hiff : (r + 1) % 15 = 0 ↔ 15 ∣ r + 1 :=
      Nat.dvd_iff_mod_eq_zero.symm
    simp only [WaitTrace.mk.injEq]
    refine ⟨trivial, by omega, by omega, ?_⟩
    by_cases hdv : 15 ∣ r + 1
    · rw [if_pos (hiff.mpr hdv)]
      rw [if_pos hdv] at hd
      omega
    · rw [if_neg (fun hmod => hdv (hiff.mp hmod))]
      rw [if_neg hdv] at hd
      omega

/-- C8: when the first n probes fail with a network-level error and
probe n+1 completes with any HTTP status s, the prober returns after
exactly n+1 probes having slept 2 time units n times and logged one
notice per 15 failed attempts; while every probe fails it has not
returned, whatever n, so there is no upper bound on the attempts. -/
theorem wait_for_service_probe_policy (n s : Nat) :
    wait_for_service (List.replicate n none ++ [some s])
      = ⟨true, n + 1, 2 * n, n / 15⟩ ∧
    wait_for_service (List.replicate n none) = ⟨false, n, 2 * n, n / 15⟩ ∧
    15 * (n / 15) ≤ n := by
  refine ⟨?_, ?_, ?_⟩
  · rw [wait_for_service, wait_go_replicate [some s] n 0]
    simp [wait_go, Nat.add_comm]
  · have h := wait_go_replicate [] n 0
    rw [List.append_nil] at h
    rw [wait_for_service, h]
    simp [wait_go]
  · calc 15 * (n / 15) = n / 15 * 15 := Nat.mul_comm _ _
      _ ≤ n := Nat.div_mul_le_self n 15

/-- C3: when the last whitespace token of a sampler string lowercases
to a recognized keyword, the normalizer yields that lowercased keyword
and the remaining tokens rejoined with single spaces; with no
recognized trailing keyword (or no tokens at all) it yields no
scheduler and the original string unchanged; the test vectors of
test_local.py evaluate as the test expects. -/
theorem extract_scheduler_contract :
    (∀ keywords s last, (tokenize s).getLast? = some last →
        lowerStr last ∈ keywords →
        extract_scheduler keywords s
          = (some (lowerStr last), joinSpace (tokenize s).dropLast)) ∧
    (∀ keywords s last, (tokenize s).getLast? = some last →
        lowerStr last ∉ keywords →
        extract_scheduler keywords s = (none, s)) ∧
    (∀ keywords s, (tokenize s).getLast? = none →
        extract_scheduler keywords s = (none, s)) ∧
    extract_scheduler SCHEDULER_KEYWORDS "DPM++ 2M Karras"
      = (some "karras", "DPM++ 2M") ∧
    extract_scheduler SCHEDULER_KEYWORDS "Euler a" = (none, "Euler a") ∧
    extract_scheduler SCHEDULER_KEYWORDS "DPM++ SDE Exponential"
      = (some "exponential", "DPM++ SDE") ∧
    extract_scheduler SCHEDULER_KEYWORDS "LMS" = (none, "LMS") ∧
    extract_scheduler SCHEDULER_KEYWORDS "DPM2 a uniform"
      = (some "uniform", "DPM2 a") := by
  refine ⟨?_, ?_, ?_, rfl, rfl, rfl, rfl, rfl⟩
  · intro keywords s last hlast hmem
    simp only [extract_scheduler, hlast]
    rw [if_pos hmem]
  · intro keywords s last hlast hmem
    simp only [extract_scheduler, hlast]
    rw [if_neg hmem]
  · intro keywords s hlast
    simp only [extract_scheduler, hlast]

/-- C10: the forwarding component answers a method other than GET and
POST with the invalid-method error dict and an empty effect trace, and
an API descriptor accepted by validation carries method GET or POST,
so that branch is unreachable after validation. -/
theorem invalid_method_no_network :
    (∀ (env : Env) (payl api epV : JVal) (m : String),
        objGet api "method" = some (.str m) →
        objGet api "endpoint" = some epV →
        m ≠ "GET" → m ≠ "POST" →
        automatic_functions env api payl
          = (.ret (errObj ("Invalid method: " ++ m)), [])) ∧
    (∀ api, validate_api api = none →
        objGet api "method" = some (.str "GET")
        ∨ objGet api "method" = some (.str "POST")) := by
  constructor
  · intro env payl api epV m hm hep hg hp
    simp only [automatic_functions, hm, hep]
    rw [if_neg hg, if_neg hp]
  · intro api h
    cases hm : objGet api "method" with
    | none =>
      simp only [validate_api, hm] at h
      exact Option.noConfusion h
    | some v =>
      cases v with
      | str m =>
        by_cases hgp : m = "GET" ∨ m = "POST"
        · cases hgp with
          | inl h1 => exact Or.inl (by rw [h1])
          | inr h2 => exact Or.inr (by rw [h2])
        · simp only [validate_api, hm] at h
          rw [if_neg hgp] at h
          exact Option.noConfusion h
      | null =>
        simp only [validate_api, hm] at h
        exact Option.noConfusion h
      | bool b =>
        simp only [validate_api, hm] at h
        exact Option.noConfusion h
      | num n =>
        simp only [validate_api, hm] at h
        exact Option.noConfusion h
      | arr xs =>
        simp only [validate_api, hm] at h
        exact Option.noConfusion h
      | obj fs =>
        simp only [validate_api, hm] at h
        exact Option.noConfusion h

/-- C1: every result document the dispatch produces for a completed job
is an object with exactly one key, which is output exactly when it is
not error. -/
theorem dispatch_result_single_key :
    ∀ (V : Validators) (env : Env) (event r : JVal) (effs : List NetEffect),
      handler V env event = (some r, effs) →
      ∃ k v, resultDoc r = .obj [(k, v)] ∧
        ((k = "output" ∧ hasKey (resultDoc r) "output" = true
            ∧ hasKey (resultDoc r) "error" = false)
         ∨ (k = "error" ∧ hasKey (resultDoc r) "error" = true
            ∧ hasKey (resultDoc r) "output" = false)) := by
  intro V env event r effs _h
  cases he : objGet r "error" with
  | none =>
    have hr : resultDoc r = .obj [("output", r)] := by
      unfold resultDoc; rw [he]
    refine ⟨"output", r, hr, Or.inl ⟨rfl, ?_, ?_⟩⟩
    · rw [hr]; rfl
    · rw [hr]; rfl
  | some e =>
    have hr : resultDoc r = .obj [("error", e)] := by
      unfold resultDoc; rw [he]
    refine ⟨"error", e, hr, Or.inr ⟨rfl, ?_, ?_⟩⟩
    · rw [hr]; rfl
    · rw [hr]; rfl

/-- C5: a job whose input lacks the api.endpoint field is answered with
an error result document and an empty effect trace: no probe, no
forward, no helper network operation. -/
theorem missing_endpoint_no_network :
    ∀ (V : Validators) (env : Env) (event : JVal),
      eventEndpoint event = none →
      ∃ msg, handler V env event = (some (errObj msg), []) ∧
        hasKey (resultDoc (errObj msg)) "error" = true ∧
        hasKey (resultDoc (errObj msg)) "output" = false := by
  intro V env event h
  cases h1 : objGet event "input" with
  | none =>
    exact ⟨"KeyError: input",
      by simp only [handler, handlerBody, pyToOpt, h1], rfl, rfl⟩
  | some inp =>
    rw [eventEndpoint, h1, Option.some_bind] at h
    cases h2 : validate_input inp with
    | some err =>
      exact ⟨err,
        by simp only [handler, handlerBody, pyToOpt, h1, h2], rfl, rfl⟩
    | none =>
      cases h3 : objGet inp "api" with
      | none =>
        exact ⟨"KeyError: api",
          by simp only [handler, handlerBody, pyToOpt, h1, h2, h3], rfl, rfl⟩
      | some api =>
        rw [h3, Option.some_bind] at h
        cases h4 : objGet inp "payload" with
        | none =>
          exact ⟨"KeyError: payload",
            by simp only [handler, handlerBody, pyToOpt, h1, h2, h3, h4], rfl, rfl⟩
        | some payl =>
          exact ⟨"KeyError: endpoint",
            by simp only [handler, handlerBody, pyToOpt, h1, h2, h3, h4, h], rfl, rfl⟩

/-- C2 counterexample: the endpoint invalid/endpoint matches no known
endpoint, yet the dispatch forwards it — the effect trace holds a
readiness probe and a POST to the backing service, and the result
document is not an error.  The allow-list the claim asserts does not
exist in the code (test_handler_direct.py documents the same run). -/
theorem unknown_endpoint_forwarded_counterexample :
    ¬ ("invalid/endpoint" ∈ knownEndpoints) ∧
    ¬ (pyStartsWith "invalid/endpoint" "v1/" = true) ∧
    handler acceptAll envDemo eventUnknown
      = (some demoBody,
         [.probe PROBE_URL, .post (BASE_URI ++ "/invalid/endpoint") (.obj [])]) ∧
    hasKey (resultDoc demoBody) "error" = false ∧
    hasKey (resultDoc demoBody) "output" = true := by
  exact ⟨by decide, by decide, rfl, rfl, rfl⟩

/-- C2 amended: schema validation precedes every network or file
effect — a dispatch with a non-empty effect trace passed envelope, API
and payload validation — and an endpoint under the helper prefix v1/
that is neither helper operation is answered with the
invalid-helper-endpoint error and an empty effect trace. -/
theorem validation_precedes_effects :
    ∀ (V : Validators) (env : Env) (event : JVal),
      ((handler V env event).2 ≠ [] →
        ∃ inp api payl e,
          objGet event "input" = some inp ∧ validate_input inp = none ∧
          objGet inp "api" = some api ∧ objGet inp "payload" = some payl ∧
          objGet api "endpoint" = some (.str e) ∧ validate_api api = none ∧
          validate_payload V payl e = none) ∧
      (∀ inp api payl e,
        objGet event "input" = some inp → validate_input inp = none →
        objGet inp "api" = some api → objGet inp "payload" = some payl →
        objGet api "endpoint" = some (.str e) → validate_api api = none →
        validate_payload V payl e = none → pyStartsWith e "v1/" = true →
        e ≠ "v1/download" → e ≠ "v1/sync" →
        handler V env event
          = (some (errObj ("Invalid helper endpoint: " ++ e)), [])) := by
  intro V env event
  constructor
  · intro htr
    cases h1 : objGet event "input" with
    | none => exact absurd (by simp [handler, handlerBody, h1]) htr
    | some inp =>
      cases h2 : validate_input inp with
      | some err => exact absurd (by simp [handler, handlerBody, h1, h2]) htr
      | none =>
        cases h3 : objGet inp "api" with
        | none => exact absurd (by simp [handler, handlerBody, h1, h2, h3]) htr
        | some api =>
          cases h4 : objGet inp "payload" with
          | none => exact absurd (by simp [handler, handlerBody, h1, h2, h3, h4]) htr
          | some payl =>
            cases h5 : objGet api "endpoint" with
            | none =>
              exact absurd (by simp [handler, handlerBody, h1, h2, h3, h4, h5]) htr
            | some epV =>
              cases h6 : validate_api api with
              | some err =>
                exact absurd
                  (by simp [handler, handlerBody, h1, h2, h3, h4, h5, h6]) htr
              | none =>
                cases epV with
                | str e =>
                  cases h7 : validate_payload V payl e with
                  | some err =>
                    exact absurd
                      (by simp [handler, handlerBody, h1, h2, h3, h4, h5, h6, h7]) htr
                  | none => exact ⟨inp, api, payl, e, rfl, h2, h3, h4, h5, h6, h7⟩
                | null =>
                  exact absurd
                    (by simp [handler, handlerBody, h1, h2, h3, h4, h5, h6]) htr
                | bool b =>
                  exact absurd
                    (by simp [handler, handlerBody, h1, h2, h3, h4, h5, h6]) htr
                | num n =>
                  exact absurd
                    (by simp [handler, handlerBody, h1, h2, h3, h4, h5, h6]) htr
                | arr xs =>
                  exact absurd
                    (by simp [handler, handlerBody, h1, h2, h3, h4, h5, h6]) htr
                | obj fs =>
                  exact absurd
                    (by simp [handler, handlerBody, h1, h2, h3, h4, h5, h6]) htr
  · intro inp api payl e h1 h2 h3 h4 h5 h6 h7 hpre hne1 hne2
    simp only [handler, handlerBody, helper_functions, pyToOpt,
      h1, h2, h3, h4, h5, h6, h7, hpre, if_true, hne1, hne2, if_false,
      if_neg hne1, if_neg hne2]

/-- C4: the job endpoint /sdapi/v1/txt2img keeps its leading slash all
the way through dispatch — the slash-stripped endpoint would select the
txt2img payload schema (here one that rejects the payload), but the
dispatch skips payload validation, routes to forwarding, and POSTs to a
URL with a double slash; nothing strips the separator before routing or
schema selection. -/
theorem leading_slash_preserved_eval :
    validate_payload rejectTxt2img (.obj [("prompt", .str "x")]) "sdapi/v1/txt2img"
      = some "txt2img payload rejected" ∧
    validate_payload rejectTxt2img (.obj [("prompt", .str "x")]) "/sdapi/v1/txt2img"
      = none ∧
    handler rejectTxt2img envDemo eventSlash
      = (some demoBody,
         [.probe PROBE_URL,
          .post (BASE_URI ++ "//sdapi/v1/txt2img") (.obj [("prompt", .str "x")])]) := by
  exact ⟨rfl, rfl, rfl⟩

/-- Witness for C1 at a concrete dispatch that completed with a
forwarded body. -/
theorem dispatch_result_single_key_case :
    ∃ k v, resultDoc demoBody = .obj [(k, v)] ∧
      ((k = "output" ∧ hasKey (resultDoc demoBody) "output" = true
          ∧ hasKey (resultDoc demoBody) "error" = false)
       ∨ (k = "error" ∧ hasKey (resultDoc demoBody) "error" = true
          ∧ hasKey (resultDoc demoBody) "output" = false)) :=
  dispatch_result_single_key acceptAll envDemo eventUnknown demoBody
    [.probe PROBE_URL, .post (BASE_URI ++ "/invalid/endpoint") (.obj [])] rfl

/-- Witness for the amended C2 at a concrete helper-prefixed job whose
endpoint matches no helper operation. -/
theorem validation_precedes_effects_case :
    handler acceptAll envDemo eventHelperMiss
      = (some (errObj ("Invalid helper endpoint: " ++ "v1/other")), []) :=
  (validation_precedes_effects acceptAll envDemo eventHelperMiss).2
    (.obj [("api", .obj [("method", .str "POST"), ("endpoint", .str "v1/other")]),
           ("payload", .obj [])])
    (.obj [("method", .str "POST"), ("endpoint", .str "v1/other")])
    (.obj []) "v1/other" rfl rfl rfl rfl rfl rfl rfl rfl (by decide) (by decide)

/-- Witness for C3 at a sampler name with a double space and an
uppercase trailing keyword. -/
theorem extract_scheduler_contract_case :
    extract_scheduler SCHEDULER_KEYWORDS "DPM++ SDE  Exponential"
      = (some (lowerStr "Exponential"),
         joinSpace (tokenize "DPM++ SDE  Exponential").dropLast) :=
  extract_scheduler_contract.1 SCHEDULER_KEYWORDS "DPM++ SDE  Exponential"
    "Exponential" rfl (by decide)

/-- Witness for C5 at a concrete job whose api carries no endpoint. -/
theorem missing_endpoint_no_network_case :
    ∃ msg, handler acceptAll envDemo eventNoEndpoint = (some (errObj msg), []) ∧
      hasKey (resultDoc (errObj msg)) "error" = true ∧
      hasKey (resultDoc (errObj msg)) "output" = false :=
  missing_endpoint_no_network acceptAll envDemo eventNoEndpoint rfl

/-- Witness for C10 at the concrete method DELETE and at a descriptor
that passes API validation. -/
theorem invalid_method_no_network_case :
    automatic_functions envDemo
        (.obj [("method", .str "DELETE"), ("endpoint", .str "sdapi/v1/txt2img")])
        (.obj [])
      = (.ret (errObj ("Invalid method: " ++ "DELETE")), [])
    ∧ (objGet (.obj [("method", .str "GET"), ("endpoint", .str "e")]) "method"
        = some (.str "GET")
       ∨ objGet (.obj [("method", .str "GET"), ("endpoint", .str "e")]) "method"
        = some (.str "POST")) :=
  ⟨invalid_method_no_network.1 envDemo (.obj [])
      (.obj [("method", .str "DELETE"), ("endpoint", .str "sdapi/v1/txt2img")])
      (.str "sdapi/v1/txt2img") "DELETE" rfl rfl (by decide) (by decide),
   invalid_method_no_network.2
      (.obj [("method", .str "GET"), ("endpoint", .str "e")]) rfl⟩
